import Mathlib

/-!
Shallow embedding of the simulated OPC UA server from
`src/OPCUA -Simulator/app.js` (class `SimulatedOpcUaServer`), together with
proofs of the specification claims about it.

Modelling conventions:
* JS objects used as ordered string-keyed maps become the `NodeMap`
  association list (JS preserves string-key insertion order).
* JS numbers become `ℚ`; `Math.random()` becomes an explicit parameter
  `r` with `0 ≤ r < 1`; `getUtcTimestamp()` becomes an explicit `Nat`
  parameter (an abstract UTC instant).
* In-place mutation of a node found by `findNode` becomes the
  path-rewriting function `updateNodeMap`, which applies the mutation to
  exactly the node `findNode` returns, following the same search order.
* Subscription callbacks become abstract `Nat` labels; invoking a callback
  becomes emitting a notification event `(label, value, timestamp)` in the
  operation's result, in invocation order.
-/

/-- Dynamically typed JS value stored in a Variable node: a number, a
boolean, or a string.  Finite JS numbers are modelled as exact rationals
(the file-wide idealization of IEEE doubles by exact arithmetic); the
infinities, which `parseFloat` can produce and `writeNode` then stores,
are the `inf` constructor. -/
inductive Value where
  | num (q : ℚ)
  | bool (b : Bool)
  | str (s : String)
  | inf (neg : Bool)
deriving DecidableEq, Repr

/-- The `dataType` attribute of a Variable node. -/
inductive DataType where
  | Float
  | Boolean
  | String
deriving DecidableEq, Repr

/-- The `nodeClass` attribute. -/
inductive NodeClass where
  | Object
  | Variable
deriving DecidableEq, Repr

/-- The `accessLevel` attribute of a Variable node. -/
inductive AccessLevel where
  | ReadOnly
  | ReadWrite
deriving DecidableEq, Repr

mutual
/-- A node of the address space.  The source builds exactly two shapes of
node object: Object nodes carrying `browseName`, `nodeId`, `nodeClass:
'Object'` and a `children` map, and Variable nodes carrying `browseName`,
`nodeId`, `nodeClass: 'Variable'`, `dataType`, `value`, `accessLevel` and
`timestamp`. -/
inductive Node where
  | obj (browseName nodeId : String) (children : NodeMap)
  | var (browseName nodeId : String) (dataType : DataType) (value : Value)
      (accessLevel : AccessLevel) (timestamp : Nat)

/-- A JS object used as an ordered map from nodeId keys to nodes (the
`addressSpace` object and every `children` object). -/
inductive NodeMap where
  | nil
  | cons (key : String) (node : Node) (rest : NodeMap)
end

/-- Direct key lookup `currentSpace[nodeId]` on one level of the map. -/
def NodeMap.lookupKey : NodeMap → String → Option Node
  | .nil, _ => none
  | .cons k n rest, i => if k = i then some n else rest.lookupKey i

/-- The `for (const key in currentSpace)` loop body of `findNode`: for each
entry that has a `children` map, recursively search that subtree (direct
lookup first, then the loop again) and return the first hit. -/
def findAux (i : String) : NodeMap → Option Node
  | .nil => none
  | .cons _ n rest =>
    match n with
    | .var _ _ _ _ _ _ => findAux i rest
    | .obj _ _ cs =>
      match cs.lookupKey i with
      | some r => some r
      | none =>
        match findAux i cs with
        | some r => some r
        | none => findAux i rest

/-- `findNode(nodeId, currentSpace)`: return `currentSpace[nodeId]` when
present, otherwise depth-first search the `children` of every entry. -/
def findNode (m : NodeMap) (i : String) : Option Node :=
  match m.lookupKey i with
  | some n => some n
  | none => findAux i m

/-- The two mutation statements `node.value = v; node.timestamp = t;`
executed by `writeNode` and by the simulation tick on the node that
`findNode` returned.  (The source only ever applies them to Variable
nodes; an Object node is returned unchanged.) -/
def setVarValue (v : Value) (t : Nat) : Node → Node
  | .var bn nid dt _ acc _ => .var bn nid dt v acc t
  | n => n

/-- Replace the node stored under key `i` at this level with `f` of it,
leaving everything else in place. -/
def NodeMap.updateKey : NodeMap → String → (Node → Node) → NodeMap
  | .nil, _, _ => .nil
  | .cons k n rest, i, f =>
    if k = i then .cons k (f n) rest else .cons k n (rest.updateKey i f)

/-- State-passing form of the in-place mutation for the depth-first-search
phase: rewrite the subtree of the first entry whose `children` contain the
target, following exactly the search order of `findAux`. -/
def updateAux (i : String) (f : Node → Node) : NodeMap → NodeMap
  | .nil => .nil
  | .cons k n rest =>
    match n with
    | .var _ _ _ _ _ _ => .cons k n (updateAux i f rest)
    | .obj bn nid cs =>
      match cs.lookupKey i with
      | some _ => .cons k (.obj bn nid (cs.updateKey i f)) rest
      | none =>
        match findAux i cs with
        | some _ => .cons k (.obj bn nid (updateAux i f cs)) rest
        | none => .cons k n (updateAux i f rest)

/-- State-passing form of mutating the node that `findNode` returns:
apply `f` to the node found by the same search order as `findNode`,
rewriting the ancestors on the path to it.  When the node is absent this
is the identity. -/
def updateNodeMap (m : NodeMap) (i : String) (f : Node → Node) : NodeMap :=
  match m.lookupKey i with
  | some _ => m.updateKey i f
  | none => updateAux i f m

/-- Whitespace skipped by JS `parseFloat` before the number: ECMA
StrWhiteSpaceChar, i.e. WhiteSpace (TAB, VT, FF, SP, NBSP, ZWNBSP and the
Unicode Space_Separator category) and the four LineTerminator
characters. -/
def isJsSpace (c : Char) : Bool :=
  c.toNat = 0x9 || c.toNat = 0xa || c.toNat = 0xb || c.toNat = 0xc ||
  c.toNat = 0xd || c.toNat = 0x20 || c.toNat = 0xa0 || c.toNat = 0x1680 ||
  (0x2000 ≤ c.toNat && c.toNat ≤ 0x200a) || c.toNat = 0x2028 ||
  c.toNat = 0x2029 || c.toNat = 0x202f || c.toNat = 0x205f ||
  c.toNat = 0x3000 || c.toNat = 0xfeff

/-- Numeric value of a list of decimal digit characters. -/
def digitsVal (ds : List Char) : Nat :=
  ds.foldl (fun a c => 10 * a + (c.toNat - 48)) 0

/-- Exponent part of a JS decimal literal: after `e`/`E`, an optional sign
and digits.  If no digits follow, the exponent part is not consumed and
the exponent is `0` (as in `parseFloat("1e") = 1`). -/
def expVal (cs : List Char) : ℤ :=
  match cs with
  | c :: t =>
    if c = 'e' ∨ c = 'E' then
      match t with
      | '-' :: u =>
        let eD := u.takeWhile Char.isDigit
        if eD.isEmpty then 0 else -(digitsVal eD : ℤ)
      | '+' :: u =>
        let eD := u.takeWhile Char.isDigit
        if eD.isEmpty then 0 else (digitsVal eD : ℤ)
      | u =>
        let eD := u.takeWhile Char.isDigit
        if eD.isEmpty then 0 else (digitsVal eD : ℤ)
    else 0
  | [] => 0

/-- A JS number as `parseFloat` produces it: a finite value (idealized
as an exact rational, ignoring rounding to double) or an infinity of
either sign (from an `Infinity` literal). -/
inductive JsNum where
  | val (q : ℚ)
  | inf (neg : Bool)
deriving DecidableEq, Repr

/-- The `Value` a `JsNum` is stored as by `writeNode`. -/
def JsNum.toValue : JsNum → Value
  | .val q => .num q
  | .inf b => .inf b

/-- Does the character list begin with ECMA StrUnsignedDecimalLiteral's
(case-sensitive) `Infinity` literal? -/
def hasInfinityLit : List Char → Bool
  | 'I' :: 'n' :: 'f' :: 'i' :: 'n' :: 'i' :: 't' :: 'y' :: _ => true
  | _ => false

/-- Skip leading JS whitespace, then consume one optional sign:
(is the sign negative, the remaining characters). -/
def signSplit (s : String) : Bool × List Char :=
  match s.data.dropWhile (fun c => isJsSpace c) with
  | '-' :: t => (true, t)
  | '+' :: t => (false, t)
  | cs => (false, cs)

/-- JS `parseFloat(text)`: skip leading whitespace, then parse the
longest prefix that is a StrDecimalLiteral — an optional sign followed by
either the `Infinity` literal or a decimal literal (digits, optional `.`
and fraction digits, optional exponent) — ignoring trailing characters;
`none` models the NaN result when no such prefix exists.  A decimal
literal denotes `sign * (intPart + fracPart/10^fracLen) * 10^exp`,
assembled as one exact fraction via `mkRat` (the file-wide exact
idealization of JS doubles: no rounding, hence no decimal overflow). -/
def parseFloatQ (s : String) : Option JsNum :=
  let neg := (signSplit s).1
  let cs1 := (signSplit s).2
  if hasInfinityLit cs1 then some (.inf neg)
  else
    let intD := cs1.takeWhile Char.isDigit
    let cs2 := cs1.dropWhile Char.isDigit
    let fracD := match cs2 with
      | '.' :: t => t.takeWhile Char.isDigit
      | _ => []
    let cs3 := match cs2 with
      | '.' :: t => t.dropWhile Char.isDigit
      | _ => cs2
    if intD.isEmpty ∧ fracD.isEmpty then none
    else
      let e : ℤ := expVal cs3
      let mAbs : Nat := (digitsVal intD * 10 ^ fracD.length + digitsVal fracD) * 10 ^ e.toNat
      let num : ℤ := if neg then -(mAbs : ℤ) else (mAbs : ℤ)
      let den : Nat := 10 ^ fracD.length * 10 ^ (-e).toNat
      some (.val (mkRat num den))

/-- Printable name of a `DataType`, as interpolated into messages. -/
def dataTypeName : DataType → String
  | .Float => "Float"
  | .Boolean => "Boolean"
  | .String => "String"

/-- A single-quote character, used in the server's message strings. -/
def singleQuote : String :=
  String.singleton (Char.ofNat 39)

/-- Wrap a string in single quotes, as the server's messages do. -/
def quoted (s : String) : String :=
  singleQuote ++ s ++ singleQuote

/-- Rendering of a value into the success message (`${node.value}`).
This abstracts the JS number-to-string conversion: rationals are rendered
as `num/den` (or just the numerator when integral); no claim depends on
this rendering. -/
def renderValue : Value → String
  | .num q => if q.den = 1 then toString q.num else toString q.num ++ "/" ++ toString q.den
  | .bool b => if b then "true" else "false"
  | .str s => s
  | .inf b => if b then "-Infinity" else "Infinity"

/-- The `switch (node.dataType)` coercion of `writeNode`: Float parses via
`parseFloat` and throws `Invalid float value.` on NaN; Boolean is true
exactly when the lowercased text is `true` or the text is `1`; String
passes through verbatim. -/
def coerceValue (dt : DataType) (raw : String) : Except String Value :=
  match dt with
  | .Float =>
    match parseFloatQ raw with
    | some n => .ok n.toValue
    | none => .error "Invalid float value."
  | .Boolean => .ok (.bool (raw.toLower == "true" || raw == "1"))
  | .String => .ok (.str raw)

/-- The subscriptions object: an ordered map from nodeId to the (abstract
label of the) single registered callback. -/
def SubMap : Type := List (String × Nat)

/-- Lookup `this.subscriptions[nodeId]`. -/
def lookupSub : List (String × Nat) → String → Option Nat
  | [], _ => none
  | (k, c) :: rest, i => if k = i then some c else lookupSub rest i

/-- Assignment `this.subscriptions[nodeId] = callback`: replace the entry
in place when the key exists, append otherwise (JS object semantics). -/
def setSub : List (String × Nat) → String → Nat → List (String × Nat)
  | [], i, c => [(i, c)]
  | (k, c0) :: rest, i, c =>
    if k = i then (k, c) :: rest else (k, c0) :: setSub rest i c

/-- Deletion `delete this.subscriptions[nodeId]`. -/
def removeSub : List (String × Nat) → String → List (String × Nat)
  | [], _ => []
  | (k, c) :: rest, i => if k = i then rest else (k, c) :: removeSub rest i

/-- The mutable fields of a `SimulatedOpcUaServer` instance:
`this.addressSpace`, `this.subscriptions` and `this.updateInterval` (the
timer handle of the simulation clock, abstracted to a `Nat`). -/
structure ServerState where
  addressSpace : NodeMap
  subscriptions : List (String × Nat)
  updateInterval : Option Nat

/-- A recorded invocation of a subscription callback:
(callback label, value argument, timestamp argument). -/
def Notif : Type := Nat × Value × Nat

/-- The record `{value, dataType, accessLevel, timestamp}` returned by a
successful `readNode`. -/
structure ReadResult where
  value : Value
  dataType : DataType
  accessLevel : AccessLevel
  timestamp : Nat
deriving DecidableEq, Repr

/-- `readNode(nodeId)`: the node's value record when the nodeId resolves
to a Variable, `none` (the not-found sentinel) otherwise.  The source
performs no assignment here, so the embedding takes the state only as
input. -/
def readNode (s : ServerState) (i : String) : Option ReadResult :=
  match findNode s.addressSpace i with
  | some (.var _ _ dt v acc ts) => some ⟨v, dt, acc, ts⟩
  | _ => none

/-- The result object of `writeNode`: `{success, message, timestamp?,
dataType?}` (the last two fields are only present on success). -/
structure WriteResult where
  success : Bool
  message : String
  timestamp : Option Nat
  dataType : Option DataType
deriving DecidableEq, Repr

/-- Everything observable about one `writeNode` call: the state after the
call, the returned result object, and the callback invocations it made. -/
structure WriteOutcome where
  state : ServerState
  result : WriteResult
  notifications : List Notif

/-- `writeNode(nodeId, newValue)` at UTC instant `now`:
lookup, Variable check, `accessLevel` check, coercion per `dataType`,
then mutation of `value`/`timestamp`, synchronous callback invocation with
`(node.value, node.timestamp)` when a subscription exists, and the success
result. -/
def writeNode (s : ServerState) (i raw : String) (now : Nat) : WriteOutcome :=
  match findNode s.addressSpace i with
  | none =>
    ⟨s, ⟨false, "Node " ++ quoted i ++ " not found or not a Variable.", none, none⟩, []⟩
  | some (.obj _ _ _) =>
    ⟨s, ⟨false, "Node " ++ quoted i ++ " not found or not a Variable.", none, none⟩, []⟩
  | some (.var bn _ dt _ acc _) =>
    if acc ≠ .ReadWrite then
      ⟨s, ⟨false, "Node " ++ quoted bn ++ " is ReadOnly.", none, none⟩, []⟩
    else
      match coerceValue dt raw with
      | .error e =>
        ⟨s, ⟨false, e ++ " for " ++ dataTypeName dt ++ " type.", none, none⟩, []⟩
      | .ok cv =>
        let space1 := updateNodeMap s.addressSpace i (setVarValue cv now)
        let notifs : List Notif :=
          match lookupSub s.subscriptions i with
          | some cb => [(cb, cv, now)]
          | none => []
        ⟨⟨space1, s.subscriptions, s.updateInterval⟩,
         ⟨true, "Value of " ++ bn ++ " updated to " ++ renderValue cv, some now, some dt⟩,
         notifs⟩

/-- One child summary produced by `browseNodes`. -/
structure BrowseSummary where
  nodeId : String
  browseName : String
  nodeClass : NodeClass
  dataType : Option DataType
  hasChildren : Bool
  value : Option Value
  timestamp : Option Nat
deriving DecidableEq, Repr

/-- Whether a map has at least one entry (`Object.keys(...).length > 0`). -/
def NodeMap.nonEmpty : NodeMap → Bool
  | .nil => false
  | .cons _ _ _ => true

/-- The summary record built for one child: for a Variable node
`children` is absent so `node.children || {}` is empty and `hasChildren`
is false, and for an Object node `dataType`/`value`/`timestamp` are
absent (`undefined`). -/
def Node.summary : Node → BrowseSummary
  | .obj bn nid cs => ⟨nid, bn, .Object, none, cs.nonEmpty, none, none⟩
  | .var bn nid dt v _ ts => ⟨nid, bn, .Variable, some dt, false, some v, some ts⟩

/-- List of the values of a map, in insertion order (`Object.values`). -/
def NodeMap.valuesList : NodeMap → List Node
  | .nil => []
  | .cons _ n rest => n :: rest.valuesList

/-- The well-known root identifier, the default `parentNodeId`. -/
def rootId : String := "ns=0;i=84"

/-- `browseNodes(parentNodeId)`: summaries of the parent's children in
insertion order, or the empty list when the parent is absent or has no
`children` map. -/
def browseNodes (s : ServerState) (parent : String) : List BrowseSummary :=
  match findNode s.addressSpace parent with
  | some (.obj _ _ cs) => cs.valuesList.map Node.summary
  | _ => []

/-- The result object of `subscribe`/`unsubscribe`: `{success, message}`. -/
structure SubResult where
  success : Bool
  message : String
deriving DecidableEq, Repr

/-- `subscribe(nodeId, callback)`: installs (replacing any previous entry)
when the nodeId resolves to a Variable, fails otherwise. -/
def subscribe (s : ServerState) (i : String) (cb : Nat) : ServerState × SubResult :=
  match findNode s.addressSpace i with
  | some (.var bn _ _ _ _ _) =>
    (⟨s.addressSpace, setSub s.subscriptions i cb, s.updateInterval⟩,
     ⟨true, "Subscribed to " ++ quoted bn ++ "."⟩)
  | _ =>
    (s, ⟨false, "Cannot subscribe to " ++ quoted i ++ ". Not a Variable."⟩)

/-- `unsubscribe(nodeId)`: removes the entry when one exists, fails with
`No active subscription` otherwise. -/
def unsubscribe (s : ServerState) (i : String) : ServerState × SubResult :=
  match lookupSub s.subscriptions i with
  | some _ =>
    (⟨s.addressSpace, removeSub s.subscriptions i, s.updateInterval⟩,
     ⟨true, "Unsubscribed from " ++ quoted i ++ "."⟩)
  | none =>
    (s, ⟨false, "No active subscription for " ++ quoted i ++ "."⟩)

/-- `startDataSimulation()`: a no-op when `this.updateInterval` is already
set, otherwise stores the fresh timer handle returned by `setInterval`
(abstracted as the parameter `handle`). -/
def startDataSimulation (s : ServerState) (handle : Nat) : ServerState :=
  match s.updateInterval with
  | some _ => s
  | none => ⟨s.addressSpace, s.subscriptions, some handle⟩

/-- `stopDataSimulation()`: clears the timer when one is set, otherwise
does nothing. -/
def stopDataSimulation (s : ServerState) : ServerState :=
  match s.updateInterval with
  | some _ => ⟨s.addressSpace, s.subscriptions, none⟩
  | none => s

/-- Whether the simulation clock is running; tick events are scheduled by
`setInterval` and fire only while this holds. -/
def clockRunning (s : ServerState) : Bool :=
  s.updateInterval.isSome

/-- The integer `n` chosen by JS `toFixed(2)`: the multiple of `1/100`
nearest to `q`, ties resolved to the larger candidate, i.e.
`⌊q * 100 + 1/2⌋`, written as an integer floor division so that it
evaluates by kernel reduction (see `fixedNum2_eq_floor`). -/
def fixedNum2 (q : ℚ) : ℤ :=
  (200 * q.num + (q.den : ℤ)) / ((2 * q.den : ℕ) : ℤ)

/-- The rational value denoted by the string `q.toFixed(2)`. -/
def fixed2Val (q : ℚ) : ℚ :=
  (fixedNum2 q : ℚ) / 100

/-- Two-digit rendering of a remainder below 100. -/
def pad2 (k : Nat) : String :=
  if k < 10 then "0" ++ toString k else toString k

/-- JS `q.toFixed(2)`: the decimal string with exactly two fraction
digits denoting `fixed2Val q`.  Note the result is a STRING — this is
what the simulation tick stores into `node.value`. -/
def toFixed2 (q : ℚ) : String :=
  let n := fixedNum2 q
  let a := n.natAbs
  (if n < 0 then "-" else "") ++ toString (a / 100) ++ "." ++ pad2 (a % 100)

/-- NodeId of the Temperature node. -/
def tempId : String := "ns=1;s=Temperature"

/-- NodeId of the Pressure node. -/
def presId : String := "ns=1;s=Pressure"

/-- NodeId of the Status node. -/
def statusId : String := "ns=1;s=Status"

/-- NodeId of the DeviceName node. -/
def deviceId : String := "ns=1;s=DeviceName"

/-- NodeId of the MyDevices folder. -/
def folderId : String := "ns=1;s=Folder1"

/-- One half of the tick body: if the target node is found, store the new
value and timestamp into it and invoke its subscription callback (with
`(node.value, node.timestamp)`, i.e. the new value and timestamp) when
one is registered. -/
def tickStep (m : NodeMap) (subs : List (String × Nat)) (i : String)
    (v : Value) (t : Nat) : NodeMap × List Notif :=
  match findNode m i with
  | some _ =>
    (updateNodeMap m i (setVarValue v t),
     match lookupSub subs i with
     | some cb => [(cb, v, t)]
     | none => [])
  | none => (m, [])

/-- One tick of the `setInterval` callback of `startDataSimulation`:
Temperature receives the string `(r1*10+20).toFixed(2)` at instant `t1`,
then Pressure receives the string `(r2*5+98).toFixed(2)` at instant `t2`
(`r1`, `r2` are the two `Math.random()` draws of the tick).  Returns the
new state and the callback invocations in order. -/
def simulationTick (s : ServerState) (r1 r2 : ℚ) (t1 t2 : Nat) :
    ServerState × List Notif :=
  let v1 : Value := .str (toFixed2 (r1 * 10 + 20))
  let p1 := tickStep s.addressSpace s.subscriptions tempId v1 t1
  let v2 : Value := .str (toFixed2 (r2 * 5 + 98))
  let p2 := tickStep p1.1 s.subscriptions presId v2 t2
  (⟨p2.1, s.subscriptions, s.updateInterval⟩, p1.2 ++ p2.2)

/-- The address space built by the constructor: Objects root → MyDevices
folder → Temperature (Float, ReadWrite, 25.5), Pressure (Float,
ReadWrite, 101.2), Status (Boolean, ReadOnly, true), DeviceName (String,
ReadOnly, "SensorUnit-A"), with the four construction-time
`getUtcTimestamp()` calls abstracted as `tT tP tS tD`. -/
def initialAddressSpace (tT tP tS tD : Nat) : NodeMap :=
  .cons rootId
    (.obj "Objects" rootId
      (.cons folderId
        (.obj "MyDevices" folderId
          (.cons tempId (.var "Temperature" tempId .Float (.num (mkRat 51 2)) .ReadWrite tT)
          (.cons presId (.var "Pressure" presId .Float (.num (mkRat 506 5)) .ReadWrite tP)
          (.cons statusId (.var "Status" statusId .Boolean (.bool true) .ReadOnly tS)
          (.cons deviceId (.var "DeviceName" deviceId .String (.str "SensorUnit-A") .ReadOnly tD)
            .nil)))))
        .nil))
    .nil

/-- The freshly constructed server: the initial address space, an empty
subscriptions object, and `updateInterval = null`. -/
def initialServer (tT tP tS tD : Nat) : ServerState :=
  ⟨initialAddressSpace tT tP tS tD, [], none⟩

deriving instance DecidableEq for Node

deriving instance DecidableEq for Except

/-- The integer chosen by `toFixed(2)` is the floor of `q * 100 + 1/2`:
nearest multiple of `1/100`, ties to the larger candidate. -/
theorem fixedNum2_eq_floor (q : ℚ) : fixedNum2 q = ⌊q * 100 + 1 / 2⌋ := by
  have h0 : (q.den : ℚ) ≠ 0 := Nat.cast_ne_zero.mpr q.den_nz
  have key : q * 100 + 1 / 2 =
      ((200 * q.num + (q.den : ℤ) : ℤ) : ℚ) / ((2 * q.den : ℕ) : ℚ) := by
    conv_lhs => rw [← Rat.num_div_den q]
    push_cast
    field_simp
    ring
  rw [fixedNum2, key, Rat.floor_intCast_div_natCast]

/-- Bounds on the `toFixed(2)` integer for an argument in `[a, b)`. -/
theorem fixedNum2_bounds (x : ℚ) (a b : ℤ) (h1 : (a : ℚ) ≤ x) (h2 : x < (b : ℚ)) :
    100 * a ≤ fixedNum2 x ∧ fixedNum2 x ≤ 100 * b := by
  rw [fixedNum2_eq_floor]
  constructor
  · apply Int.le_floor.mpr
    push_cast
    linarith
  · have h3 : ⌊x * 100 + 1 / 2⌋ < 100 * b + 1 := by
      apply Int.floor_lt.mpr
      push_cast
      linarith
    omega

/-- The value denoted by `x.toFixed(2)` for `x ∈ [a, b)` lies in the
CLOSED interval `[a, b]`: rounding up can reach `b` exactly. -/
theorem fixed2Val_bounds (x : ℚ) (a b : ℤ) (h1 : (a : ℚ) ≤ x) (h2 : x < (b : ℚ)) :
    (a : ℚ) ≤ fixed2Val x ∧ fixed2Val x ≤ (b : ℚ) := by
  obtain ⟨hl, hu⟩ := fixedNum2_bounds x a b h1 h2
  unfold fixed2Val
  constructor
  · rw [le_div_iff₀ (by norm_num : (0:ℚ) < 100)]
    calc (a : ℚ) * 100 = ((100 * a : ℤ) : ℚ) := by push_cast; ring
    _ ≤ (fixedNum2 x : ℚ) := by exact_mod_cast hl
  · rw [div_le_iff₀ (by norm_num : (0:ℚ) < 100)]
    calc (fixedNum2 x : ℚ) ≤ ((100 * b : ℤ) : ℚ) := by exact_mod_cast hu
    _ = (b : ℚ) * 100 := by push_cast; ring

/-- Looking up the updated key after `updateKey` yields the image of the
old node under the update. -/
theorem lookupKey_updateKey_self (i : String) (f : Node → Node) :
    ∀ m : NodeMap, (m.updateKey i f).lookupKey i = (m.lookupKey i).map f
  | .nil => rfl
  | .cons k n rest => by
    by_cases h : k = i
    · simp [NodeMap.updateKey, NodeMap.lookupKey, h]
    · simp [NodeMap.updateKey, NodeMap.lookupKey, h,
        lookupKey_updateKey_self i f rest]

/-- `updateKey` at `i` does not disturb lookups of other keys. -/
theorem lookupKey_updateKey_ne (i j : String) (f : Node → Node) (hne : j ≠ i) :
    ∀ m : NodeMap, (m.updateKey i f).lookupKey j = m.lookupKey j
  | .nil => rfl
  | .cons k n rest => by
    by_cases h : k = i
    · have hkj : ¬ k = j := fun hkj => hne (by rw [← hkj, h])
      simp [NodeMap.updateKey, NodeMap.lookupKey, h, hkj, Ne.symm hne]
    · by_cases h2 : k = j
      · simp [NodeMap.updateKey, NodeMap.lookupKey, h, h2, hne]
      · simp [NodeMap.updateKey, NodeMap.lookupKey, h, h2,
          lookupKey_updateKey_ne i j f hne rest]

/-- `updateAux` preserves the keys of every level it touches, so a key
absent from the top level stays absent. -/
theorem lookupKey_updateAux_none (i j : String) (f : Node → Node) :
    ∀ m : NodeMap, m.lookupKey j = none → (updateAux i f m).lookupKey j = none
  | .nil, _ => rfl
  | .cons k n rest, h => by
    have hkj : ¬ k = j := by
      intro hkj
      simp [NodeMap.lookupKey, hkj] at h
    have hrest : rest.lookupKey j = none := by
      simpa [NodeMap.lookupKey, hkj] using h
    cases n with
    | var bn nid dt v0 a t0 =>
      simp [updateAux, NodeMap.lookupKey, hkj,
        lookupKey_updateAux_none i j f rest hrest]
    | obj bn nid cs =>
      cases h1 : cs.lookupKey i with
      | some r => simp [updateAux, h1, NodeMap.lookupKey, hkj, hrest]
      | none =>
        cases h2 : findAux i cs with
        | some r => simp [updateAux, h1, h2, NodeMap.lookupKey, hkj, hrest]
        | none =>
          simp [updateAux, h1, h2, NodeMap.lookupKey, hkj,
            lookupKey_updateAux_none i j f rest hrest]

/-- A Variable node sitting directly under a key is untouched by an
`updateAux` targeting (the value and timestamp of) another node. -/
theorem lookupKey_updateAux_var (i j : String) (v : Value) (t : Nat)
    (bn nid : String) (dt : DataType) (v0 : Value) (a : AccessLevel) (t0 : Nat) :
    ∀ m : NodeMap, m.lookupKey j = some (.var bn nid dt v0 a t0) →
      (updateAux i (setVarValue v t) m).lookupKey j = some (.var bn nid dt v0 a t0)
  | .cons k n rest, h => by
    by_cases hkj : k = j
    · have hn : n = .var bn nid dt v0 a t0 := by
        simpa [NodeMap.lookupKey, hkj] using h
      subst hn
      simp [updateAux, NodeMap.lookupKey, hkj]
    · have hrest : rest.lookupKey j = some (.var bn nid dt v0 a t0) := by
        simpa [NodeMap.lookupKey, hkj] using h
      cases n with
      | var bn2 nid2 dt2 v2 a2 t2 =>
        simp [updateAux, NodeMap.lookupKey, hkj,
          lookupKey_updateAux_var i j v t bn nid dt v0 a t0 rest hrest]
      | obj bn2 nid2 cs =>
        cases h1 : cs.lookupKey i with
        | some r => simp [updateAux, h1, NodeMap.lookupKey, hkj, hrest]
        | none =>
          cases h2 : findAux i cs with
          | some r => simp [updateAux, h1, h2, NodeMap.lookupKey, hkj, hrest]
          | none =>
            simp [updateAux, h1, h2, NodeMap.lookupKey, hkj,
              lookupKey_updateAux_var i j v t bn nid dt v0 a t0 rest hrest]

/-- Replacing the value/timestamp of the node stored under key `i` does
not change what the search loop finds for any target: a Variable payload
is never descended into, and an Object is left unchanged by
`setVarValue`. -/
theorem findAux_updateKey (i j : String) (v : Value) (t : Nat) :
    ∀ m : NodeMap, findAux j (m.updateKey i (setVarValue v t)) = findAux j m
  | .nil => rfl
  | .cons k n rest => by
    by_cases h : k = i
    · cases n with
      | var bn nid dt v0 a t0 => simp [NodeMap.updateKey, h, findAux, setVarValue]
      | obj bn nid cs => simp [NodeMap.updateKey, h, findAux, setVarValue]
    · cases n with
      | var bn nid dt v0 a t0 =>
        simp [NodeMap.updateKey, h, findAux, findAux_updateKey i j v t rest]
      | obj bn nid cs =>
        simp [NodeMap.updateKey, h, findAux, findAux_updateKey i j v t rest]

/-- The search loop on the rewritten map finds exactly the image under
`f` of what it found before: the rewrite follows the search order. -/
theorem findAux_updateAux_self (i : String) (f : Node → Node) :
    ∀ m : NodeMap, findAux i (updateAux i f m) = (findAux i m).map f
  | .nil => rfl
  | .cons k n rest => by
    cases n with
    | var bn nid dt v0 a t0 =>
      simp [updateAux, findAux, findAux_updateAux_self i f rest]
    | obj bn nid cs =>
      cases h1 : cs.lookupKey i with
      | some r =>
        simp [updateAux, h1, findAux, lookupKey_updateKey_self i f cs, h1]
      | none =>
        cases h2 : findAux i cs with
        | some r =>
          simp [updateAux, h1, h2, findAux,
            lookupKey_updateAux_none i i f cs h1,
            findAux_updateAux_self i f cs]
        | none =>
          simp [updateAux, h1, h2, findAux, findAux_updateAux_self i f rest]

/-- If the search loop does not find `j`, it still does not find `j`
after a value/timestamp update targeting `i ≠ j`. -/
theorem findAux_updateAux_none (i j : String) (hne : j ≠ i) (v : Value) (t : Nat) :
    ∀ m : NodeMap, findAux j m = none →
      findAux j (updateAux i (setVarValue v t) m) = none
  | .nil, _ => rfl
  | .cons k n rest, h => by
    cases n with
    | var bn2 nid2 dt2 v2 a2 t2 =>
      have hrest : findAux j rest = none := by
        simpa [findAux] using h
      simp [updateAux, findAux, findAux_updateAux_none i j hne v t rest hrest]
    | obj bn2 nid2 cs =>
      have h3 : cs.lookupKey j = none := by
        cases h3 : cs.lookupKey j with
        | some w => simp [findAux, h3] at h
        | none => rfl
      have h4 : findAux j cs = none := by
        cases h4 : findAux j cs with
        | some w => simp [findAux, h3, h4] at h
        | none => rfl
      have hrest : findAux j rest = none := by
        simpa [findAux, h3, h4] using h
      cases h1 : cs.lookupKey i with
      | some r =>
        simp only [updateAux, h1, findAux]
        rw [lookupKey_updateKey_ne i j (setVarValue v t) hne cs,
          findAux_updateKey i j v t cs]
        simp [h3, h4, hrest]
      | none =>
        cases h2 : findAux i cs with
        | some r =>
          simp only [updateAux, h1, h2, findAux]
          rw [lookupKey_updateAux_none i j (setVarValue v t) cs h3,
            findAux_updateAux_none i j hne v t cs h4]
          simp [hrest]
        | none =>
          simp only [updateAux, h1, h2, findAux]
          simp [h3, h4, findAux_updateAux_none i j hne v t rest hrest]

/-- A Variable node found by the search loop under a different nodeId is
still found, unchanged, after an update of value/timestamp at `i`. -/
theorem findAux_updateAux_ne (i j : String) (hne : j ≠ i) (v : Value) (t : Nat)
    (bn nid : String) (dt : DataType) (v0 : Value) (a : AccessLevel) (t0 : Nat) :
    ∀ m : NodeMap, findAux j m = some (.var bn nid dt v0 a t0) →
      findAux j (updateAux i (setVarValue v t) m) = some (.var bn nid dt v0 a t0)
  | .cons k n rest, h => by
    cases n with
    | var bn2 nid2 dt2 v2 a2 t2 =>
      have hrest : findAux j rest = some (.var bn nid dt v0 a t0) := by
        simpa [findAux] using h
      simp [updateAux, findAux,
        findAux_updateAux_ne i j hne v t bn nid dt v0 a t0 rest hrest]
    | obj bn2 nid2 cs =>
      cases h1 : cs.lookupKey i with
      | some r =>
        simp only [updateAux, h1, findAux]
        rw [lookupKey_updateKey_ne i j (setVarValue v t) hne cs,
          findAux_updateKey i j v t cs]
        simpa [findAux] using h
      | none =>
        cases h2 : findAux i cs with
        | some r =>
          simp only [updateAux, h1, h2, findAux]
          cases h3 : cs.lookupKey j with
          | some w =>
            have hw : w = .var bn nid dt v0 a t0 := by
              simpa [findAux, h3] using h
            subst hw
            rw [lookupKey_updateAux_var i j v t bn nid dt v0 a t0 cs h3]
          | none =>
            rw [lookupKey_updateAux_none i j (setVarValue v t) cs h3]
            cases h4 : findAux j cs with
            | some w =>
              have hw : w = .var bn nid dt v0 a t0 := by
                simpa [findAux, h3, h4] using h
              subst hw
              rw [findAux_updateAux_ne i j hne v t bn nid dt v0 a t0 cs h4]
            | none =>
              have hrest : findAux j rest = some (.var bn nid dt v0 a t0) := by
                simpa [findAux, h3, h4] using h
              rw [findAux_updateAux_none i j hne v t cs h4]
              simp [hrest]
        | none =>
          simp only [updateAux, h1, h2, findAux]
          cases h3 : cs.lookupKey j with
          | some w =>
            have hw : w = .var bn nid dt v0 a t0 := by
              simpa [findAux, h3] using h
            subst hw
            rfl
          | none =>
            cases h4 : findAux j cs with
            | some w =>
              have hw : w = .var bn nid dt v0 a t0 := by
                simpa [findAux, h3, h4] using h
              subst hw
              rfl
            | none =>
              have hrest : findAux j rest = some (.var bn nid dt v0 a t0) := by
                simpa [findAux, h3, h4] using h
              simp [findAux_updateAux_ne i j hne v t bn nid dt v0 a t0 rest hrest]

/-- Mutating the node that `findNode` finds at `i` changes exactly that
node: looking `i` up afterwards yields the image of the old node. -/
theorem findNode_update_self (m : NodeMap) (i : String) (f : Node → Node) :
    findNode (updateNodeMap m i f) i = (findNode m i).map f := by
  unfold updateNodeMap findNode
  cases h : m.lookupKey i with
  | some n =>
    simp [h, lookupKey_updateKey_self i f m]
  | none =>
    simp [h, lookupKey_updateAux_none i i f m h, findAux_updateAux_self i f m]

/-- A Variable node registered under a different nodeId is untouched by a
value/timestamp update at `i`. -/
theorem findNode_update_ne (m : NodeMap) (i j : String) (hne : j ≠ i)
    (v : Value) (t : Nat) (bn nid : String) (dt : DataType) (v0 : Value)
    (a : AccessLevel) (t0 : Nat)
    (h : findNode m j = some (.var bn nid dt v0 a t0)) :
    findNode (updateNodeMap m i (setVarValue v t)) j = some (.var bn nid dt v0 a t0) := by
  unfold updateNodeMap
  cases h1 : m.lookupKey i with
  | some n =>
    unfold findNode
    rw [lookupKey_updateKey_ne i j (setVarValue v t) hne m,
      findAux_updateKey i j v t m]
    exact h
  | none =>
    unfold findNode
    cases h2 : m.lookupKey j with
    | some w =>
      have hw : w = .var bn nid dt v0 a t0 := by
        simpa [findNode, h2] using h
      subst hw
      rw [lookupKey_updateAux_var i j v t bn nid dt v0 a t0 m h2]
    | none =>
      have h3 : findAux j m = some (.var bn nid dt v0 a t0) := by
        simpa [findNode, h2] using h
      rw [lookupKey_updateAux_none i j (setVarValue v t) m h2]
      simp [findAux_updateAux_ne i j hne v t bn nid dt v0 a t0 m h3]

/-- A key that occurs in no entry looks up to nothing. -/
theorem lookupSub_eq_none_of_not_mem (l : List (String × Nat)) (i : String)
    (h : i ∉ l.map Prod.fst) : lookupSub l i = none := by
  induction l with
  | nil => rfl
  | cons p rest ih =>
    simp only [List.map_cons, List.mem_cons] at h
    push_neg at h
    cases p with
    | mk k c =>
      have hk : ¬ k = i := fun hk => h.1 hk.symm
      simp [lookupSub, hk, ih h.2]

/-- After `subscriptions[i] = c`, looking up `i` yields `c`. -/
theorem lookupSub_setSub_self (l : List (String × Nat)) (i : String) (c : Nat) :
    lookupSub (setSub l i c) i = some c := by
  induction l with
  | nil => simp [setSub, lookupSub]
  | cons p rest ih =>
    cases p with
    | mk k c0 =>
      by_cases h : k = i
      · simp [setSub, lookupSub, h]
      · simp [setSub, lookupSub, h, ih]

/-- `subscriptions[i] = c` does not disturb other keys. -/
theorem lookupSub_setSub_ne (l : List (String × Nat)) (i j : String) (c : Nat)
    (hne : j ≠ i) : lookupSub (setSub l i c) j = lookupSub l j := by
  induction l with
  | nil => simp [setSub, lookupSub, Ne.symm hne]
  | cons p rest ih =>
    cases p with
    | mk k c0 =>
      by_cases h : k = i
      · have hkj : ¬ k = j := fun hkj => hne (by rw [← hkj, h])
        simp [setSub, lookupSub, h, hkj, Ne.symm hne]
      · by_cases h2 : k = j
        · simp [setSub, lookupSub, h, h2, hne]
        · simp [setSub, lookupSub, h, h2, ih]

/-- With no duplicate keys, `delete subscriptions[i]` removes the entry
for `i` entirely. -/
theorem lookupSub_removeSub_self (l : List (String × Nat)) (i : String)
    (hnd : (l.map Prod.fst).Nodup) : lookupSub (removeSub l i) i = none := by
  induction l with
  | nil => rfl
  | cons p rest ih =>
    cases p with
    | mk k c =>
      simp only [List.map_cons, List.nodup_cons] at hnd
      by_cases h : k = i
      · subst h
        simp only [removeSub, if_pos rfl]
        exact lookupSub_eq_none_of_not_mem rest k hnd.1
      · simp [removeSub, lookupSub, h, ih hnd.2]

/-- `delete subscriptions[i]` does not disturb other keys. -/
theorem lookupSub_removeSub_ne (l : List (String × Nat)) (i j : String)
    (hne : j ≠ i) : lookupSub (removeSub l i) j = lookupSub l j := by
  induction l with
  | nil => rfl
  | cons p rest ih =>
    cases p with
    | mk k c =>
      by_cases h : k = i
      · have hkj : ¬ k = j := fun hkj => hne (by rw [← hkj, h])
        simp [removeSub, lookupSub, h, hkj, Ne.symm hne]
      · by_cases h2 : k = j
        · simp [removeSub, lookupSub, h, h2, hne]
        · simp [removeSub, lookupSub, h, h2, ih]

/-- C7: for every nodeId, `read` returns the `{value, dataType,
accessLevel, timestamp}` record of the node when the nodeId resolves to a
Variable node, and the not-found sentinel when the nodeId is absent or
resolves to an Object node.  (`readNode` consumes the state without
producing one — the source performs no mutation in `readNode` — so
freedom from side effects is structural in the embedding.) -/
theorem claim_C7 (s : ServerState) (i : String) :
    (∀ bn nid dt v a t,
      findNode s.addressSpace i = some (.var bn nid dt v a t) →
      readNode s i = some ⟨v, dt, a, t⟩) ∧
    (findNode s.addressSpace i = none → readNode s i = none) ∧
    (∀ bn nid cs, findNode s.addressSpace i = some (.obj bn nid cs) →
      readNode s i = none) := by
  refine ⟨?_, ?_, ?_⟩
  · intro bn nid dt v a t h
    simp [readNode, h]
  · intro h
    simp [readNode, h]
  · intro bn nid cs h
    simp [readNode, h]

/-- Closed instance of C7 on the freshly constructed server: reading
Temperature yields its record, reading an absent nodeId and reading the
MyDevices Object both yield the sentinel. -/
theorem claim_C7_witness :
    readNode (initialServer 1 2 3 4) tempId =
      some ⟨.num (mkRat 51 2), .Float, .ReadWrite, 1⟩ ∧
    readNode (initialServer 1 2 3 4) "ns=1;s=Missing" = none ∧
    readNode (initialServer 1 2 3 4) folderId = none := by
  refine ⟨?_, ?_, ?_⟩
  · exact (claim_C7 (initialServer 1 2 3 4) tempId).1 "Temperature" tempId
      .Float (.num (mkRat 51 2)) .ReadWrite 1 (by decide)
  · exact (claim_C7 (initialServer 1 2 3 4) "ns=1;s=Missing").2.1 (by decide)
  · exact (claim_C7 (initialServer 1 2 3 4) folderId).2.2 "MyDevices" folderId
      (.cons tempId (.var "Temperature" tempId .Float (.num (mkRat 51 2)) .ReadWrite 1)
      (.cons presId (.var "Pressure" presId .Float (.num (mkRat 506 5)) .ReadWrite 2)
      (.cons statusId (.var "Status" statusId .Boolean (.bool true) .ReadOnly 3)
      (.cons deviceId (.var "DeviceName" deviceId .String (.str "SensorUnit-A") .ReadOnly 4)
        .nil)))) (by decide)

/-- C9: `start` while the clock is already running is a no-op leaving the
state (and in particular the existing timer handle) untouched; `stop` is
idempotent and safe when the clock is not running; after `stop` the clock
is not running, so no further ticks are scheduled. -/
theorem claim_C9 (s : ServerState) (h0 : Nat) :
    (s.updateInterval.isSome = true → startDataSimulation s h0 = s) ∧
    (s.updateInterval = none → stopDataSimulation s = s) ∧
    stopDataSimulation (stopDataSimulation s) = stopDataSimulation s ∧
    clockRunning (stopDataSimulation s) = false := by
  cases h : s.updateInterval with
  | some x =>
    refine ⟨?_, ?_, ?_, ?_⟩ <;>
      simp [startDataSimulation, stopDataSimulation, clockRunning, h]
  | none =>
    refine ⟨?_, ?_, ?_, ?_⟩ <;>
      simp [startDataSimulation, stopDataSimulation, clockRunning, h]

/-- Closed instance of C9 on a running and a stopped server. -/
theorem claim_C9_witness :
    startDataSimulation ⟨initialAddressSpace 1 2 3 4, [], some 7⟩ 9 =
      ⟨initialAddressSpace 1 2 3 4, [], some 7⟩ ∧
    stopDataSimulation (initialServer 1 2 3 4) = initialServer 1 2 3 4 ∧
    clockRunning (stopDataSimulation ⟨initialAddressSpace 1 2 3 4, [], some 7⟩) = false := by
  refine ⟨?_, ?_, ?_⟩
  · exact (claim_C9 ⟨initialAddressSpace 1 2 3 4, [], some 7⟩ 9).1 (by decide)
  · exact (claim_C9 (initialServer 1 2 3 4) 0).2.1 (by decide)
  · exact (claim_C9 ⟨initialAddressSpace 1 2 3 4, [], some 7⟩ 0).2.2.2

/-- C8: `unsubscribe(nodeId)` fails exactly when no subscription is
registered for that nodeId, returning the failure result and leaving the
whole state unchanged; when one is registered it succeeds, removes
exactly that entry (assuming the registry's keys are unique, which JS
object semantics guarantee) and leaves all other entries and the rest of
the state intact. -/
theorem claim_C8 (s : ServerState) (i : String) :
    (lookupSub s.subscriptions i = none →
      unsubscribe s i =
        (s, ⟨false, "No active subscription for " ++ quoted i ++ "."⟩)) ∧
    (∀ c, lookupSub s.subscriptions i = some c →
      (unsubscribe s i).2 = ⟨true, "Unsubscribed from " ++ quoted i ++ "."⟩ ∧
      (unsubscribe s i).1.addressSpace = s.addressSpace ∧
      (unsubscribe s i).1.updateInterval = s.updateInterval ∧
      ((s.subscriptions.map Prod.fst).Nodup →
        lookupSub (unsubscribe s i).1.subscriptions i = none) ∧
      (∀ j, j ≠ i →
        lookupSub (unsubscribe s i).1.subscriptions j = lookupSub s.subscriptions j)) := by
  constructor
  · intro h
    simp [unsubscribe, h]
  · intro c h
    refine ⟨?_, ?_, ?_, ?_, ?_⟩
    · simp [unsubscribe, h]
    · simp [unsubscribe, h]
    · simp [unsubscribe, h]
    · intro hnd
      simp [unsubscribe, h, lookupSub_removeSub_self s.subscriptions i hnd]
    · intro j hj
      simp [unsubscribe, h, lookupSub_removeSub_ne s.subscriptions i j hj]

/-- Closed instance of C8: unsubscribing an inactive nodeId fails and
changes nothing; unsubscribing an active one removes exactly it. -/
theorem claim_C8_witness :
    unsubscribe ⟨initialAddressSpace 1 2 3 4, [(presId, 6)], none⟩ tempId =
      (⟨initialAddressSpace 1 2 3 4, [(presId, 6)], none⟩,
       ⟨false, "No active subscription for " ++ quoted tempId ++ "."⟩) ∧
    (unsubscribe ⟨initialAddressSpace 1 2 3 4, [(tempId, 5), (presId, 6)], none⟩ tempId).2 =
      ⟨true, "Unsubscribed from " ++ quoted tempId ++ "."⟩ ∧
    lookupSub (unsubscribe ⟨initialAddressSpace 1 2 3 4, [(tempId, 5), (presId, 6)], none⟩ tempId).1.subscriptions tempId = none ∧
    lookupSub (unsubscribe ⟨initialAddressSpace 1 2 3 4, [(tempId, 5), (presId, 6)], none⟩ tempId).1.subscriptions presId = some 6 := by
  refine ⟨?_, ?_, ?_, ?_⟩
  · exact (claim_C8 ⟨initialAddressSpace 1 2 3 4, [(presId, 6)], none⟩ tempId).1 (by decide)
  · exact ((claim_C8 ⟨initialAddressSpace 1 2 3 4, [(tempId, 5), (presId, 6)], none⟩ tempId).2 5 (by decide)).1
  · exact ((claim_C8 ⟨initialAddressSpace 1 2 3 4, [(tempId, 5), (presId, 6)], none⟩ tempId).2 5 (by decide)).2.2.2.1 (by decide)
  · exact ((claim_C8 ⟨initialAddressSpace 1 2 3 4, [(tempId, 5), (presId, 6)], none⟩ tempId).2 5 (by decide)).2.2.2.2 presId (by decide)

/-- C5: on the constructed address space, browsing the root yields the
single MyDevices summary with `hasChildren = true`; browsing MyDevices
yields exactly the four child summaries in declaration order, each with
`hasChildren = false`; the order is the children's insertion order fixed
at construction (it is the literal order of the `children` map); and
browsing an absent nodeId, a Variable node, or an Object without
children yields the empty sequence. -/
theorem claim_C5 (tT tP tS tD : Nat) :
    browseNodes (initialServer tT tP tS tD) rootId =
      [⟨folderId, "MyDevices", .Object, none, true, none, none⟩] ∧
    browseNodes (initialServer tT tP tS tD) folderId =
      [⟨tempId, "Temperature", .Variable, some .Float, false, some (.num (mkRat 51 2)), some tT⟩,
       ⟨presId, "Pressure", .Variable, some .Float, false, some (.num (mkRat 506 5)), some tP⟩,
       ⟨statusId, "Status", .Variable, some .Boolean, false, some (.bool true), some tS⟩,
       ⟨deviceId, "DeviceName", .Variable, some .String, false, some (.str "SensorUnit-A"), some tD⟩] ∧
    (∀ (s : ServerState) (p : String),
      findNode s.addressSpace p = none → browseNodes s p = []) ∧
    (∀ (s : ServerState) (p bn nid : String) (dt : DataType) (v : Value)
        (a : AccessLevel) (t : Nat),
      findNode s.addressSpace p = some (.var bn nid dt v a t) → browseNodes s p = []) ∧
    (∀ (s : ServerState) (p bn nid : String),
      findNode s.addressSpace p = some (.obj bn nid .nil) → browseNodes s p = []) := by
  refine ⟨rfl, rfl, ?_, ?_, ?_⟩
  · intro s p h
    simp [browseNodes, h]
  · intro s p bn nid dt v a t h
    simp [browseNodes, h]
  · intro s p bn nid h
    simp [browseNodes, h, NodeMap.valuesList]

/-- Closed instance of C5's conditional parts: browsing an absent nodeId
and browsing the Temperature Variable both yield the empty sequence. -/
theorem claim_C5_witness :
    browseNodes (initialServer 1 2 3 4) "ns=1;s=Missing" = [] ∧
    browseNodes (initialServer 1 2 3 4) tempId = [] := by
  constructor
  · exact (claim_C5 1 2 3 4).2.2.1 (initialServer 1 2 3 4) "ns=1;s=Missing" (by decide)
  · exact (claim_C5 1 2 3 4).2.2.2.1 (initialServer 1 2 3 4) tempId "Temperature" tempId
      .Float (.num (mkRat 51 2)) .ReadWrite 1 (by decide)

/-- `subscribe` never changes the address space or the timer. -/
theorem subscribe_addressSpace (s : ServerState) (i : String) (cb : Nat) :
    (subscribe s i cb).1.addressSpace = s.addressSpace ∧
    (subscribe s i cb).1.updateInterval = s.updateInterval := by
  unfold subscribe
  cases h : findNode s.addressSpace i with
  | none => exact ⟨rfl, rfl⟩
  | some n =>
    cases n with
    | obj bn nid cs => exact ⟨rfl, rfl⟩
    | var bn nid dt v a t => exact ⟨rfl, rfl⟩

/-- C6: the registry holds at most one callback per nodeId.
`subscribe` succeeds exactly when the nodeId resolves to a Variable,
installing the callback and replacing any previous one and leaving other
entries alone; after subscribing `cb1` and then `cb2` on the same
nodeId, a subsequent successful write notifies exactly `cb2` once, and
`cb1` (when distinct) receives nothing. -/
theorem claim_C6 (s : ServerState) (i : String) (cb1 cb2 : Nat) :
    (∀ bn nid dt v a t,
      findNode s.addressSpace i = some (.var bn nid dt v a t) →
      (subscribe s i cb1).2.success = true ∧
      lookupSub (subscribe s i cb1).1.subscriptions i = some cb1) ∧
    ((findNode s.addressSpace i = none ∨
      (∃ bn nid cs, findNode s.addressSpace i = some (.obj bn nid cs))) →
      subscribe s i cb1 =
        (s, ⟨false, "Cannot subscribe to " ++ quoted i ++ ". Not a Variable."⟩)) ∧
    (∀ bn nid dt v a t, findNode s.addressSpace i = some (.var bn nid dt v a t) →
      ∀ j, j ≠ i →
      lookupSub (subscribe s i cb1).1.subscriptions j = lookupSub s.subscriptions j) ∧
    (∀ bn nid dt v t,
      findNode s.addressSpace i = some (.var bn nid dt v .ReadWrite t) →
      ∀ raw now cv, coerceValue dt raw = .ok cv →
      (writeNode (subscribe (subscribe s i cb1).1 i cb2).1 i raw now).notifications =
        [(cb2, cv, now)] ∧
      (cb1 ≠ cb2 →
        ∀ x ∈ (writeNode (subscribe (subscribe s i cb1).1 i cb2).1 i raw now).notifications,
          x.1 ≠ cb1)) := by
  refine ⟨?_, ?_, ?_, ?_⟩
  · intro bn nid dt v a t h
    simp [subscribe, h, lookupSub_setSub_self]
  · intro h
    rcases h with h | ⟨bn, nid, cs, h⟩ <;> simp [subscribe, h]
  · intro bn nid dt v a t h j hj
    simp [subscribe, h, lookupSub_setSub_ne s.subscriptions i j cb1 hj]
  · intro bn nid dt v t h raw now cv hcv
    have h1 : (subscribe s i cb1).1.addressSpace = s.addressSpace :=
      (subscribe_addressSpace s i cb1).1
    have hs1 : findNode (subscribe s i cb1).1.addressSpace i =
        some (.var bn nid dt v .ReadWrite t) := by rw [h1]; exact h
    have hsubs1 : (subscribe s i cb1).1.subscriptions = setSub s.subscriptions i cb1 := by
      simp [subscribe, h]
    generalize hg : (subscribe s i cb1).1 = s1 at hs1 hsubs1
    have hs2 : findNode (subscribe s1 i cb2).1.addressSpace i =
        some (.var bn nid dt v .ReadWrite t) := by
      rw [(subscribe_addressSpace s1 i cb2).1]
      exact hs1
    have hsubs2 : (subscribe s1 i cb2).1.subscriptions =
        setSub (setSub s.subscriptions i cb1) i cb2 := by
      simp [subscribe, hs1, hsubs1]
    have hlook : lookupSub (subscribe s1 i cb2).1.subscriptions i = some cb2 := by
      rw [hsubs2]
      exact lookupSub_setSub_self (setSub s.subscriptions i cb1) i cb2
    constructor
    · simp [writeNode, hs2, hcv, hlook]
    · intro hne x hx
      simp [writeNode, hs2, hcv, hlook] at hx
      subst hx
      exact Ne.symm hne

/-- Closed instance of C6: on the constructed server, subscribing to
Temperature succeeds and installs the callback, and after subscribing
callback 1 and then callback 2, a successful write notifies exactly
callback 2 once. -/
theorem claim_C6_witness :
    (subscribe (initialServer 1 2 3 4) tempId 1).2.success = true ∧
    lookupSub (subscribe (initialServer 1 2 3 4) tempId 1).1.subscriptions tempId = some 1 ∧
    (writeNode (subscribe (subscribe (initialServer 1 2 3 4) tempId 1).1 tempId 2).1
        tempId "26.75" 9).notifications = [(2, .num (mkRat 2675 100), 9)] := by
  have hfind : findNode (initialServer 1 2 3 4).addressSpace tempId =
      some (.var "Temperature" tempId .Float (.num (mkRat 51 2)) .ReadWrite 1) := by decide
  obtain ⟨hsucc, hlook⟩ :=
    (claim_C6 (initialServer 1 2 3 4) tempId 1 2).1 "Temperature" tempId
      .Float (.num (mkRat 51 2)) .ReadWrite 1 hfind
  refine ⟨hsucc, hlook, ?_⟩
  exact ((claim_C6 (initialServer 1 2 3 4) tempId 1 2).2.2.2 "Temperature" tempId
    .Float (.num (mkRat 51 2)) 1 hfind "26.75" 9 (.num (mkRat 2675 100)) (by decide)).1

/-- C2: writing a successfully-coerced textual value to a ReadWrite
Variable stores the coerced value with the current instant as timestamp,
invokes the registered callback exactly once with that value and
timestamp (no callback when none is registered), leaves the registry and
timer unchanged, and returns a success result carrying the confirmation
message, the new timestamp and the dataType; the stored, notified and
returned value/timestamp all agree. -/
theorem claim_C2 (s : ServerState) (i raw : String) (now : Nat)
    (bn nid : String) (dt : DataType) (v0 : Value) (t0 : Nat) (cv : Value)
    (h : findNode s.addressSpace i = some (.var bn nid dt v0 .ReadWrite t0))
    (hcv : coerceValue dt raw = .ok cv) :
    (writeNode s i raw now).result =
      ⟨true, "Value of " ++ bn ++ " updated to " ++ renderValue cv, some now, some dt⟩ ∧
    findNode (writeNode s i raw now).state.addressSpace i =
      some (.var bn nid dt cv .ReadWrite now) ∧
    (writeNode s i raw now).state.subscriptions = s.subscriptions ∧
    (writeNode s i raw now).state.updateInterval = s.updateInterval ∧
    (writeNode s i raw now).notifications =
      (match lookupSub s.subscriptions i with
       | some cb => [(cb, cv, now)]
       | none => []) := by
  refine ⟨?_, ?_, ?_, ?_, ?_⟩
  · simp [writeNode, h, hcv]
  · simp only [writeNode, h, ne_eq, not_true_eq_false, if_false, hcv]
    rw [findNode_update_self, h]
    simp [setVarValue]
  · simp [writeNode, h, hcv]
  · simp [writeNode, h, hcv]
  · simp [writeNode, h, hcv]

/-- Closed instance of C2: writing "26.75" to Temperature with an active
subscription stores 26.75 at the new instant, notifies callback 5
exactly once with the same value and timestamp, and returns the success
record. -/
theorem claim_C2_witness :
    (writeNode ⟨initialAddressSpace 1 2 3 4, [(tempId, 5)], none⟩ tempId "26.75" 9).result =
      ⟨true, "Value of " ++ "Temperature" ++ " updated to " ++ renderValue (.num (mkRat 2675 100)),
       some 9, some .Float⟩ ∧
    findNode (writeNode ⟨initialAddressSpace 1 2 3 4, [(tempId, 5)], none⟩
        tempId "26.75" 9).state.addressSpace tempId =
      some (.var "Temperature" tempId .Float (.num (mkRat 2675 100)) .ReadWrite 9) ∧
    (writeNode ⟨initialAddressSpace 1 2 3 4, [(tempId, 5)], none⟩ tempId "26.75" 9).notifications =
      [(5, .num (mkRat 2675 100), 9)] := by
  have hfind : findNode (⟨initialAddressSpace 1 2 3 4, [(tempId, 5)], none⟩ : ServerState).addressSpace tempId =
      some (.var "Temperature" tempId .Float (.num (mkRat 51 2)) .ReadWrite 1) := by decide
  obtain ⟨h1, h2, h3, h4, h5⟩ :=
    claim_C2 ⟨initialAddressSpace 1 2 3 4, [(tempId, 5)], none⟩ tempId "26.75" 9
      "Temperature" tempId .Float (.num (mkRat 51 2)) 1 (.num (mkRat 2675 100))
      hfind (by decide)
  refine ⟨h1, h2, ?_⟩
  rw [h5]
  rfl

/-- C3: every failing write — nodeId absent, nodeId an Object, Variable
not ReadWrite, or Float coercion failure — returns a failure result
(whose message for a Float coercion failure embeds the parse error and
the dataType), leaves the whole server state (hence every node's value
and timestamp) unchanged, and invokes no callback; and these four cases
are exactly the failing ones. -/
theorem claim_C3 (s : ServerState) (i raw : String) (now : Nat) :
    ((writeNode s i raw now).result.success = false ↔
      (findNode s.addressSpace i = none ∨
       (∃ bn nid cs, findNode s.addressSpace i = some (.obj bn nid cs)) ∨
       (∃ bn nid dt v t, findNode s.addressSpace i = some (.var bn nid dt v .ReadOnly t)) ∨
       (∃ bn nid v t, findNode s.addressSpace i = some (.var bn nid .Float v .ReadWrite t) ∧
         parseFloatQ raw = none))) ∧
    ((writeNode s i raw now).result.success = false →
      (writeNode s i raw now).state = s ∧ (writeNode s i raw now).notifications = []) ∧
    (∀ bn nid v t,
      findNode s.addressSpace i = some (.var bn nid .Float v .ReadWrite t) →
      parseFloatQ raw = none →
      (writeNode s i raw now).result.message = "Invalid float value. for Float type.") := by
  cases hf : findNode s.addressSpace i with
  | none =>
    refine ⟨?_, ?_, ?_⟩
    · simp [writeNode, hf]
    · intro _
      simp [writeNode, hf]
    · intro bn nid v t hh
      cases hh
  | some n =>
    cases n with
    | obj bn0 nid0 cs =>
      refine ⟨?_, ?_, ?_⟩
      · simp [writeNode, hf]
      · intro _
        simp [writeNode, hf]
      · intro bn nid v t hh
        simp at hh
    | var bn0 nid0 dt0 v0 a0 t0 =>
      cases a0 with
      | ReadOnly =>
        refine ⟨?_, ?_, ?_⟩
        · constructor
          · intro _
            exact Or.inr (Or.inr (Or.inl ⟨bn0, nid0, dt0, v0, t0, rfl⟩))
          · intro _
            simp [writeNode, hf]
        · intro _
          simp [writeNode, hf]
        · intro bn nid v t hh
          simp at hh
      | ReadWrite =>
        cases dt0 with
        | Float =>
          cases hp : parseFloatQ raw with
          | none =>
            refine ⟨?_, ?_, ?_⟩
            · constructor
              · intro _
                exact Or.inr (Or.inr (Or.inr ⟨bn0, nid0, v0, t0, rfl, rfl⟩))
              · intro _
                simp [writeNode, hf, coerceValue, hp]
            · intro _
              simp [writeNode, hf, coerceValue, hp]
            · intro bn nid v t hh hp2
              simp [writeNode, hf, coerceValue, hp, dataTypeName]
          | some q =>
            refine ⟨?_, ?_, ?_⟩
            · constructor
              · intro hsucc
                simp [writeNode, hf, coerceValue, hp] at hsucc
              · intro hd
                rcases hd with hd | ⟨bn, nid, cs, hd⟩ | ⟨bn, nid, dt, v, t, hd⟩ |
                  ⟨bn, nid, v, t, hd, hp2⟩
                · cases hd
                · simp at hd
                · simp at hd
                · cases hp2
            · intro hsucc
              simp [writeNode, hf, coerceValue, hp] at hsucc
            · intro bn nid v t hh hp2
              cases hp2
        | Boolean =>
          refine ⟨?_, ?_, ?_⟩
          · constructor
            · intro hsucc
              simp [writeNode, hf, coerceValue] at hsucc
            · intro hd
              rcases hd with hd | ⟨bn, nid, cs, hd⟩ | ⟨bn, nid, dt, v, t, hd⟩ |
                ⟨bn, nid, v, t, hd, hp2⟩
              · cases hd
              · simp at hd
              · simp at hd
              · simp at hd
          · intro hsucc
            simp [writeNode, hf, coerceValue] at hsucc
          · intro bn nid v t hh
            simp at hh
        | String =>
          refine ⟨?_, ?_, ?_⟩
          · constructor
            · intro hsucc
              simp [writeNode, hf, coerceValue] at hsucc
            · intro hd
              rcases hd with hd | ⟨bn, nid, cs, hd⟩ | ⟨bn, nid, dt, v, t, hd⟩ |
                ⟨bn, nid, v, t, hd, hp2⟩
              · cases hd
              · simp at hd
              · simp at hd
              · simp at hd
          · intro hsucc
            simp [writeNode, hf, coerceValue] at hsucc
          · intro bn nid v t hh
            simp at hh

/-- Closed instance of C3: writing to the ReadOnly Status node and
writing unparseable text to Temperature both fail, keep the state
identical, invoke no callback, and the Float failure carries the
parse-error message. -/
theorem claim_C3_witness :
    (writeNode (initialServer 1 2 3 4) statusId "false" 9).result.success = false ∧
    (writeNode (initialServer 1 2 3 4) statusId "false" 9).state = initialServer 1 2 3 4 ∧
    (writeNode (initialServer 1 2 3 4) tempId "abc" 9).result.success = false ∧
    (writeNode (initialServer 1 2 3 4) tempId "abc" 9).state = initialServer 1 2 3 4 ∧
    (writeNode (initialServer 1 2 3 4) tempId "abc" 9).notifications = [] ∧
    (writeNode (initialServer 1 2 3 4) tempId "abc" 9).result.message =
      "Invalid float value. for Float type." := by
  have hs : (writeNode (initialServer 1 2 3 4) statusId "false" 9).result.success = false :=
    (claim_C3 (initialServer 1 2 3 4) statusId "false" 9).1.mpr
      (Or.inr (Or.inr (Or.inl ⟨"Status", statusId, .Boolean, .bool true, 3, by decide⟩)))
  have ht : (writeNode (initialServer 1 2 3 4) tempId "abc" 9).result.success = false :=
    (claim_C3 (initialServer 1 2 3 4) tempId "abc" 9).1.mpr
      (Or.inr (Or.inr (Or.inr ⟨"Temperature", tempId, .num (mkRat 51 2), 1, by decide, by decide⟩)))
  refine ⟨hs, ((claim_C3 (initialServer 1 2 3 4) statusId "false" 9).2.1 hs).1, ht,
    ((claim_C3 (initialServer 1 2 3 4) tempId "abc" 9).2.1 ht).1,
    ((claim_C3 (initialServer 1 2 3 4) tempId "abc" 9).2.1 ht).2,
    (claim_C3 (initialServer 1 2 3 4) tempId "abc" 9).2.2 "Temperature" tempId
      (.num (mkRat 51 2)) 1 (by decide) (by decide)⟩

/-- C4: writing any text to a ReadWrite Boolean Variable always succeeds
(Boolean coercion has no failure path), and the stored value is `true`
exactly when the lowercased text equals "true" or the text equals "1",
and `false` for every other text. -/
theorem claim_C4 (s : ServerState) (i raw : String) (now : Nat)
    (bn nid : String) (v0 : Value) (t0 : Nat)
    (h : findNode s.addressSpace i = some (.var bn nid .Boolean v0 .ReadWrite t0)) :
    (writeNode s i raw now).result.success = true ∧
    findNode (writeNode s i raw now).state.addressSpace i =
      some (.var bn nid .Boolean (.bool (raw.toLower == "true" || raw == "1"))
        .ReadWrite now) ∧
    ((raw.toLower == "true" || raw == "1") = true ↔
      (raw.toLower = "true" ∨ raw = "1")) := by
  refine ⟨?_, ?_, ?_⟩
  · simp [writeNode, h, coerceValue]
  · simp only [writeNode, h, ne_eq, not_true_eq_false, if_false, coerceValue]
    rw [findNode_update_self, h]
    simp [setVarValue]
  · simp

/-- Closed instance of C4 on a variant address space whose Status node is
a ReadWrite Boolean: "TRUE" coerces to true, "yes" coerces to false, and
both writes succeed. -/
theorem claim_C4_witness :
    (writeNode ⟨.cons statusId (.var "Status" statusId .Boolean (.bool false) .ReadWrite 3)
        .nil, [], none⟩ statusId "TRUE" 9).result.success = true ∧
    findNode (writeNode ⟨.cons statusId (.var "Status" statusId .Boolean (.bool false) .ReadWrite 3)
        .nil, [], none⟩ statusId "TRUE" 9).state.addressSpace statusId =
      some (.var "Status" statusId .Boolean (.bool ("TRUE".toLower == "true" || "TRUE" == "1"))
        .ReadWrite 9) ∧
    (writeNode ⟨.cons statusId (.var "Status" statusId .Boolean (.bool false) .ReadWrite 3)
        .nil, [], none⟩ statusId "yes" 9).result.success = true ∧
    findNode (writeNode ⟨.cons statusId (.var "Status" statusId .Boolean (.bool false) .ReadWrite 3)
        .nil, [], none⟩ statusId "yes" 9).state.addressSpace statusId =
      some (.var "Status" statusId .Boolean (.bool ("yes".toLower == "true" || "yes" == "1"))
        .ReadWrite 9) := by
  obtain ⟨h1, h2, h3⟩ :=
    claim_C4 ⟨.cons statusId (.var "Status" statusId .Boolean (.bool false) .ReadWrite 3)
      .nil, [], none⟩ statusId "TRUE" 9 "Status" statusId (.bool false) 3 (by decide)
  obtain ⟨h4, h5, h6⟩ :=
    claim_C4 ⟨.cons statusId (.var "Status" statusId .Boolean (.bool false) .ReadWrite 3)
      .nil, [], none⟩ statusId "yes" 9 "Status" statusId (.bool false) 3 (by decide)
  exact ⟨h1, h2, h4, h5⟩

/-- Spec-side predicate, following C10's words: does the text begin,
after optional leading whitespace and an optional sign, with a parseable
decimal-NUMBER prefix (digits, or a decimal point with fraction digits)?
The `Infinity` literal is deliberately NOT a decimal number.  Used to
compare the claimed success condition against the code's. -/
def specDecimalStart (s : String) : Bool :=
  let cs1 := (signSplit s).2
  !(cs1.takeWhile Char.isDigit).isEmpty ||
    (match cs1.dropWhile Char.isDigit with
     | '.' :: t => !(t.takeWhile Char.isDigit).isEmpty
     | _ => false)

/-- Spec-side predicate: does the text begin, after optional leading
whitespace and an optional sign, with the `Infinity` literal? -/
def specInfinityStart (s : String) : Bool :=
  hasInfinityLit (signSplit s).2

/-- C10 counterexample: `parseFloat("Infinity")` is `Infinity`, which is
not NaN, so the source's write of the text "Infinity" to the Temperature
node SUCCEEDS and stores `Infinity` — although "Infinity" has no
parseable decimal-number prefix.  The claimed "succeeds iff a
decimal-number prefix" equivalence is therefore false at this input. -/
theorem claim_C10_counterexample :
    (writeNode (initialServer 1 2 3 4) tempId "Infinity" 9).result.success = true ∧
    findNode (writeNode (initialServer 1 2 3 4) tempId "Infinity" 9).state.addressSpace
        tempId = some (.var "Temperature" tempId .Float (.inf false) .ReadWrite 9) ∧
    specDecimalStart "Infinity" = false := by
  decide

/-- C10 as amended: for a ReadWrite Float Variable, a write succeeds
exactly when the text begins (after optional leading JS whitespace) with
a parseable StrDecimalLiteral prefix — an optionally signed decimal
number OR `Infinity` literal; on success the stored value is the value
that prefix denotes (the exact rational of a decimal literal under the
exact-arithmetic idealization, an infinity for the `Infinity` literal),
trailing characters ignored; texts with neither kind of prefix fail with
the invalid-float error. -/
theorem claim_C10_amended (s : ServerState) (i raw : String) (now : Nat)
    (bn nid : String) (v0 : Value) (t0 : Nat)
    (h : findNode s.addressSpace i = some (.var bn nid .Float v0 .ReadWrite t0)) :
    ((writeNode s i raw now).result.success = true ↔ (parseFloatQ raw).isSome = true) ∧
    (∀ n, parseFloatQ raw = some n →
      findNode (writeNode s i raw now).state.addressSpace i =
        some (.var bn nid .Float n.toValue .ReadWrite now)) ∧
    (parseFloatQ raw).isSome = (specInfinityStart raw || specDecimalStart raw) := by
  refine ⟨?_, ?_, ?_⟩
  · cases hp : parseFloatQ raw with
    | none => simp [writeNode, h, coerceValue, hp]
    | some n => simp [writeNode, h, coerceValue, hp]
  · intro n hn
    simp only [writeNode, h, ne_eq, not_true_eq_false, if_false, coerceValue, hn]
    rw [findNode_update_self, h]
    simp [setVarValue]
  · simp only [parseFloatQ, specDecimalStart, specInfinityStart]
    cases hinf : hasInfinityLit (signSplit raw).2 with
    | true => simp [hinf]
    | false =>
      simp only [hinf, Bool.false_or, if_false]
      by_cases hint : (((signSplit raw).2).takeWhile Char.isDigit).isEmpty
      · cases hc : ((signSplit raw).2).dropWhile Char.isDigit with
        | nil => simp [hint, hc]
        | cons c t =>
          by_cases hdot : c = '.'
          · subst hdot
            by_cases hfrac : (t.takeWhile Char.isDigit).isEmpty
            · simp [hint, hc, hfrac]
            · simp [hint, hc, hfrac]
          · simp [hint, hc, hdot]
      · cases hc : ((signSplit raw).2).dropWhile Char.isDigit with
        | nil => simp [hint, hc]
        | cons c t =>
          by_cases hdot : c = '.'
          · subst hdot
            simp [hint, hc]
          · simp [hint, hc, hdot]

/-- Closed instance of the amended C10: "26.75abc" succeeds and stores
the decimal prefix 26.75; "abc" has no parseable prefix and fails;
"Infinity" and an NBSP-led "\u00A05" succeed as in JS, storing the
infinity and the number 5. -/
theorem claim_C10_amended_witness :
    (writeNode (initialServer 1 2 3 4) tempId "26.75abc" 9).result.success = true ∧
    findNode (writeNode (initialServer 1 2 3 4) tempId "26.75abc" 9).state.addressSpace
        tempId = some (.var "Temperature" tempId .Float
          (JsNum.val (mkRat 2675 100)).toValue .ReadWrite 9) ∧
    (writeNode (initialServer 1 2 3 4) tempId "abc" 9).result.success = false ∧
    (writeNode (initialServer 1 2 3 4) tempId "Infinity" 9).result.success = true ∧
    (writeNode (initialServer 1 2 3 4) tempId "\u00A05" 9).result.success = true ∧
    findNode (writeNode (initialServer 1 2 3 4) tempId "\u00A05" 9).state.addressSpace
        tempId = some (.var "Temperature" tempId .Float
          (JsNum.val (mkRat 5 1)).toValue .ReadWrite 9) := by
  have hfind : findNode (initialServer 1 2 3 4).addressSpace tempId =
      some (.var "Temperature" tempId .Float (.num (mkRat 51 2)) .ReadWrite 1) := by decide
  obtain ⟨hiff1, hstore1, _⟩ :=
    claim_C10_amended (initialServer 1 2 3 4) tempId "26.75abc" 9 "Temperature" tempId
      (.num (mkRat 51 2)) 1 hfind
  obtain ⟨hiff2, _, _⟩ :=
    claim_C10_amended (initialServer 1 2 3 4) tempId "abc" 9 "Temperature" tempId
      (.num (mkRat 51 2)) 1 hfind
  obtain ⟨hiff3, _, _⟩ :=
    claim_C10_amended (initialServer 1 2 3 4) tempId "Infinity" 9 "Temperature" tempId
      (.num (mkRat 51 2)) 1 hfind
  obtain ⟨hiff4, hstore4, _⟩ :=
    claim_C10_amended (initialServer 1 2 3 4) tempId "\u00A05" 9 "Temperature" tempId
      (.num (mkRat 51 2)) 1 hfind
  refine ⟨hiff1.mpr (by decide), hstore1 (.val (mkRat 2675 100)) (by decide), ?_,
    hiff3.mpr (by decide), hiff4.mpr (by decide),
    hstore4 (.val (mkRat 5 1)) (by decide)⟩
  have hno : ¬ ((writeNode (initialServer 1 2 3 4) tempId "abc" 9).result.success = true) := by
    rw [hiff2]
    decide
  cases hs : (writeNode (initialServer 1 2 3 4) tempId "abc" 9).result.success with
  | false => rfl
  | true => exact absurd hs hno

/-- Spec-side predicate, following the claim's words: is this stored
value a NUMBER lying in the half-open interval `[lo, hi)`?  Used to
compare the claimed post-tick reading against what the code stores. -/
def specNumberInB (lo hi : ℚ) : Value → Bool
  | .num q => decide (lo ≤ q) && decide (q < hi)
  | _ => false

/-- C1 counterexample: with the Math.random draw 0.9996, the tick stores
into Temperature the STRING "30.00" — `toFixed(2)` returns a string and
rounds 29.996 up to 30.00 — so the value read back is not a number in
the half-open interval [20, 30), contradicting the claim as stated. -/
theorem claim_C1_counterexample :
    (readNode (simulationTick (initialServer 0 0 0 0) (mkRat 9996 10000) (mkRat 1 2) 5 6).1
        tempId).map (fun r => r.value) = some (.str "30.00") ∧
    (readNode (simulationTick (initialServer 0 0 0 0) (mkRat 9996 10000) (mkRat 1 2) 5 6).1
        tempId).map (fun r => specNumberInB 20 30 r.value) = some false := by
  have h1 : (mkRat 9996 10000 : ℚ) * 10 + 20 = mkRat 29996 1000 := by norm_num
  have h2 : (mkRat 1 2 : ℚ) * 5 + 98 = mkRat 201 2 := by norm_num
  simp only [simulationTick, h1, h2]
  decide

/-- C1 as amended: each tick stores into Temperature the `toFixed(2)`
STRING of `r1*10+20` (timestamp `t1`) and into Pressure the `toFixed(2)`
string of `r2*5+98` (timestamp `t2`); the numbers those strings denote
lie in the CLOSED intervals [20, 30] and [98, 103] (the upper bound is
reachable by rounding up); the registered callbacks for Temperature and
Pressure are each invoked exactly once with the new value and timestamp,
in that order; and the Status and DeviceName nodes are never mutated. -/
theorem claim_C1_amended (s : ServerState) (r1 r2 : ℚ) (t1 t2 : Nat)
    (bnT nidT : String) (dtT : DataType) (vT : Value) (aT : AccessLevel) (tsT : Nat)
    (bnP nidP : String) (dtP : DataType) (vP : Value) (aP : AccessLevel) (tsP : Nat)
    (bnS nidS : String) (dtS : DataType) (vS : Value) (aS : AccessLevel) (tsS : Nat)
    (bnD nidD : String) (dtD : DataType) (vD : Value) (aD : AccessLevel) (tsD : Nat)
    (hT : findNode s.addressSpace tempId = some (.var bnT nidT dtT vT aT tsT))
    (hP : findNode s.addressSpace presId = some (.var bnP nidP dtP vP aP tsP))
    (hS : findNode s.addressSpace statusId = some (.var bnS nidS dtS vS aS tsS))
    (hD : findNode s.addressSpace deviceId = some (.var bnD nidD dtD vD aD tsD))
    (hr1a : 0 ≤ r1) (hr1b : r1 < 1) (hr2a : 0 ≤ r2) (hr2b : r2 < 1) :
    findNode (simulationTick s r1 r2 t1 t2).1.addressSpace tempId =
      some (.var bnT nidT dtT (.str (toFixed2 (r1 * 10 + 20))) aT t1) ∧
    findNode (simulationTick s r1 r2 t1 t2).1.addressSpace presId =
      some (.var bnP nidP dtP (.str (toFixed2 (r2 * 5 + 98))) aP t2) ∧
    (20 : ℚ) ≤ fixed2Val (r1 * 10 + 20) ∧ fixed2Val (r1 * 10 + 20) ≤ 30 ∧
    (98 : ℚ) ≤ fixed2Val (r2 * 5 + 98) ∧ fixed2Val (r2 * 5 + 98) ≤ 103 ∧
    (simulationTick s r1 r2 t1 t2).2 =
      (match lookupSub s.subscriptions tempId with
       | some cb => [(cb, Value.str (toFixed2 (r1 * 10 + 20)), t1)]
       | none => []) ++
      (match lookupSub s.subscriptions presId with
       | some cb => [(cb, Value.str (toFixed2 (r2 * 5 + 98)), t2)]
       | none => []) ∧
    findNode (simulationTick s r1 r2 t1 t2).1.addressSpace statusId =
      some (.var bnS nidS dtS vS aS tsS) ∧
    findNode (simulationTick s r1 r2 t1 t2).1.addressSpace deviceId =
      some (.var bnD nidD dtD vD aD tsD) := by
  have hm1P : findNode (updateNodeMap s.addressSpace tempId
      (setVarValue (Value.str (toFixed2 (r1 * 10 + 20))) t1)) presId =
      some (.var bnP nidP dtP vP aP tsP) :=
    findNode_update_ne s.addressSpace tempId presId (by decide) _ _
      bnP nidP dtP vP aP tsP hP
  have hm1T : findNode (updateNodeMap s.addressSpace tempId
      (setVarValue (Value.str (toFixed2 (r1 * 10 + 20))) t1)) tempId =
      some (.var bnT nidT dtT (.str (toFixed2 (r1 * 10 + 20))) aT t1) := by
    rw [findNode_update_self, hT]
    simp [setVarValue]
  have hm1S : findNode (updateNodeMap s.addressSpace tempId
      (setVarValue (Value.str (toFixed2 (r1 * 10 + 20))) t1)) statusId =
      some (.var bnS nidS dtS vS aS tsS) :=
    findNode_update_ne s.addressSpace tempId statusId (by decide) _ _
      bnS nidS dtS vS aS tsS hS
  have hm1D : findNode (updateNodeMap s.addressSpace tempId
      (setVarValue (Value.str (toFixed2 (r1 * 10 + 20))) t1)) deviceId =
      some (.var bnD nidD dtD vD aD tsD) :=
    findNode_update_ne s.addressSpace tempId deviceId (by decide) _ _
      bnD nidD dtD vD aD tsD hD
  have hstep : simulationTick s r1 r2 t1 t2 =
      (⟨updateNodeMap (updateNodeMap s.addressSpace tempId
          (setVarValue (Value.str (toFixed2 (r1 * 10 + 20))) t1)) presId
          (setVarValue (Value.str (toFixed2 (r2 * 5 + 98))) t2),
        s.subscriptions, s.updateInterval⟩,
       (match lookupSub s.subscriptions tempId with
        | some cb => [(cb, Value.str (toFixed2 (r1 * 10 + 20)), t1)]
        | none => []) ++
       (match lookupSub s.subscriptions presId with
        | some cb => [(cb, Value.str (toFixed2 (r2 * 5 + 98)), t2)]
        | none => [])) := by
    simp [simulationTick, tickStep, hT, hm1P]
    rfl
  rw [hstep]
  refine ⟨?_, ?_, ?_, ?_, ?_, ?_, rfl, ?_, ?_⟩
  · exact findNode_update_ne _ presId tempId (by decide) _ _
      bnT nidT dtT (.str (toFixed2 (r1 * 10 + 20))) aT t1 hm1T
  · rw [findNode_update_self, hm1P]
    simp [setVarValue]
  · have := (fixed2Val_bounds (r1 * 10 + 20) 20 30
      (by push_cast; linarith) (by push_cast; linarith)).1
    exact_mod_cast this
  · have := (fixed2Val_bounds (r1 * 10 + 20) 20 30
      (by push_cast; linarith) (by push_cast; linarith)).2
    exact_mod_cast this
  · have := (fixed2Val_bounds (r2 * 5 + 98) 98 103
      (by push_cast; linarith) (by push_cast; linarith)).1
    exact_mod_cast this
  · have := (fixed2Val_bounds (r2 * 5 + 98) 98 103
      (by push_cast; linarith) (by push_cast; linarith)).2
    exact_mod_cast this
  · exact findNode_update_ne _ presId statusId (by decide) _ _
      bnS nidS dtS vS aS tsS hm1S
  · exact findNode_update_ne _ presId deviceId (by decide) _ _
      bnD nidD dtD vD aD tsD hm1D

/-- Closed instance of the amended C1 on the constructed server with a
Temperature subscription: draw 0.9996 for Temperature and 1/3 for
Pressure; both nodes receive the `toFixed(2)` string values at the new
instants, only the Temperature callback fires, and Status and DeviceName
are untouched. -/
theorem claim_C1_amended_witness :
    findNode (simulationTick ⟨initialAddressSpace 1 2 3 4, [(tempId, 5)], none⟩
        (mkRat 9996 10000) (mkRat 1 3) 11 12).1.addressSpace tempId =
      some (.var "Temperature" tempId .Float
        (.str (toFixed2 (mkRat 9996 10000 * 10 + 20))) .ReadWrite 11) ∧
    findNode (simulationTick ⟨initialAddressSpace 1 2 3 4, [(tempId, 5)], none⟩
        (mkRat 9996 10000) (mkRat 1 3) 11 12).1.addressSpace presId =
      some (.var "Pressure" presId .Float
        (.str (toFixed2 (mkRat 1 3 * 5 + 98))) .ReadWrite 12) ∧
    (simulationTick ⟨initialAddressSpace 1 2 3 4, [(tempId, 5)], none⟩
        (mkRat 9996 10000) (mkRat 1 3) 11 12).2 =
      (match lookupSub [(tempId, 5)] tempId with
       | some cb => [(cb, Value.str (toFixed2 (mkRat 9996 10000 * 10 + 20)), 11)]
       | none => []) ++
      (match lookupSub [(tempId, 5)] presId with
       | some cb => [(cb, Value.str (toFixed2 (mkRat 1 3 * 5 + 98)), 12)]
       | none => []) ∧
    findNode (simulationTick ⟨initialAddressSpace 1 2 3 4, [(tempId, 5)], none⟩
        (mkRat 9996 10000) (mkRat 1 3) 11 12).1.addressSpace statusId =
      some (.var "Status" statusId .Boolean (.bool true) .ReadOnly 3) ∧
    findNode (simulationTick ⟨initialAddressSpace 1 2 3 4, [(tempId, 5)], none⟩
        (mkRat 9996 10000) (mkRat 1 3) 11 12).1.addressSpace deviceId =
      some (.var "DeviceName" deviceId .String (.str "SensorUnit-A") .ReadOnly 4) := by
  obtain ⟨h1, h2, _, _, _, _, h7, h8, h9⟩ :=
    claim_C1_amended ⟨initialAddressSpace 1 2 3 4, [(tempId, 5)], none⟩
      (mkRat 9996 10000) (mkRat 1 3) 11 12
      "Temperature" tempId .Float (.num (mkRat 51 2)) .ReadWrite 1
      "Pressure" presId .Float (.num (mkRat 506 5)) .ReadWrite 2
      "Status" statusId .Boolean (.bool true) .ReadOnly 3
      "DeviceName" deviceId .String (.str "SensorUnit-A") .ReadOnly 4
      (by decide) (by decide) (by decide) (by decide)
      (by decide) (by decide) (by decide) (by decide)
  exact ⟨h1, h2, h7, h8, h9⟩
